import Mathlib

/-!
Verification of the botpress carousel renderer, NLU server HTTP routes,
and the TrainNow training-control widget, shallowly embedded in Lean 4.

Source files embedded:
  * the carousel content-type module (`render`, `renderElement`);
  * the NLU server API module (`POST /train`, `GET /train/:modelId`,
    `POST /predict/:modelId` route handlers);
  * `TrainNow.tsx` (training-control widget state machine).

JavaScript exceptions are embedded as `Except String`; the routes'
`res.send` / `res.status(n).send` responses as a `RouteResponse` type.
-/

set_option autoImplicit false

namespace Botpress

/-! ## Carousel content type

`render(data)` builds a list of events: an optional typing event followed by
one carousel event whose elements are mapped from `data.items`; each card's
`actions` are mapped to buttons by a three-way switch on `a.action` that
throws on an unrecognized value. A throw inside `Array.prototype.map`
propagates, so the embedding maps with an `Except`-valued traversal that
stops at the first error. -/

/-- A card action, as consumed by the button switch: `a.action`, `a.title`,
and the payload fields `a.text`, `a.url`, `a.payload` (optional in JS). -/
structure Action where
  action : String
  title : Option String
  text : Option String
  url : Option String
  payload : Option String
  deriving DecidableEq, Repr

/-- A card of `data.items`: `card.title`, `card.image`, `card.subtitle`,
`card.actions`. -/
structure Card where
  title : Option String
  image : Option String
  subtitle : Option String
  actions : List Action
  deriving DecidableEq, Repr

/-- Input `data` of `render` / `renderElement`: the fields the function
reads (`typing`, `collectFeedback`, `items`, `BOT_URL`). -/
structure CarouselData where
  typing : Bool
  collectFeedback : Bool
  items : List Card
  BOT_URL : String
  deriving DecidableEq, Repr

/-- The three button shapes produced by the switch on `a.action`; each
constructor carries exactly the fields of the corresponding object literal
(`type` is the constructor tag). -/
inductive Button where
  | say_something (title : Option String) (text : Option String)
  | open_url (title : Option String) (url : Option String)
  | postback (title : Option String) (payload : Option String)
  deriving DecidableEq, Repr

/-- A carousel element: `{title, picture, subtitle, buttons}`. -/
structure Element where
  title : Option String
  picture : Option String
  subtitle : Option String
  buttons : List Button
  deriving DecidableEq, Repr

/-- An event of the returned list: the typing indicator
`{type:'typing', value}` or the carousel payload
`{text:' ', type:'carousel', collectFeedback, elements}`. -/
inductive RenderEvent where
  | typing (value : Bool)
  | carousel (text : String) (collectFeedback : Bool) (elements : List Element)
  deriving DecidableEq, Repr

/-- Sequential `Except`-valued map: JS `Array.prototype.map` whose callback
may throw, stopping at the first thrown error. -/
def mapE {α β : Type} (f : α → Except String β) : List α → Except String (List β)
  | [] => .ok []
  | x :: xs =>
    match f x with
    | .error e => .error e
    | .ok y =>
      match mapE f xs with
      | .error e => .error e
      | .ok ys => .ok (y :: ys)

/-- The button callback of `render`: the three-way switch on `a.action`,
throwing on any other value. -/
def mkButton (botUrl : String) (a : Action) : Except String Button :=
  if a.action = "Say something" then
    .ok (.say_something a.title a.text)
  else if a.action = "Open URL" then
    .ok (.open_url a.title (a.url.map (fun u => u.replace "BOT_URL" botUrl)))
  else if a.action = "Postback" then
    .ok (.postback a.title a.payload)
  else
    .error ("Webchat carousel does not support \"" ++ a.action ++ "\" action-buttons at the moment")

/-- The element callback of `render`: one card to one carousel element. -/
def renderCard (data : CarouselData) (card : Card) : Except String Element :=
  match mapE (mkButton data.BOT_URL) card.actions with
  | .error e => .error e
  | .ok buttons =>
    .ok { title := card.title
          picture := card.image.map (fun img => data.BOT_URL ++ img)
          subtitle := card.subtitle
          buttons := buttons }

/-- `render(data)`: optional typing event followed by the carousel event. -/
def render (data : CarouselData) : Except String (List RenderEvent) :=
  match mapE (renderCard data) data.items with
  | .error e => .error e
  | .ok elements =>
    .ok ((if data.typing then [RenderEvent.typing true] else []) ++
         [RenderEvent.carousel " " data.collectFeedback elements])

/-- Result of `renderElement`: delegation to the opaque channel-templated
renderer `base.renderer(data, 'carousel')` (whose source is not part of
this module), or the locally synthesized payload. -/
inductive RenderResult where
  | delegated (data : CarouselData) (kind : String)
  | direct (events : Except String (List RenderEvent))
  deriving Repr

/-- The fixed channel allow-list of `renderElement`. -/
def supportedChannels : List String :=
  ["web", "slack", "teams", "messenger", "telegram", "twilio"]

/-- `renderElement(data, channel)`. -/
def renderElement (data : CarouselData) (channel : String) : RenderResult :=
  if supportedChannels.contains channel then
    .delegated data "carousel"
  else
    .direct (render data)

/-! ## NLU server HTTP routes

Each route handler is a `try/catch` around calls to external services
(`modelService`, `engine`, `trainService`, `trainSessionService`) whose
implementations are outside this module. The handler is embedded as a pure
function of the request plus an oracle record giving each external call's
outcome for this request (`Except` for calls that may throw). Responses:
`res.send(body)` is `RouteResponse.ok body` (HTTP 200, `{success:true,…}`),
`res.status(n).send({success:false,error})` is `RouteResponse.err n error`. -/

/-- A persisted model as the routes read it: its `languageCode`. -/
structure Model where
  id : String
  languageCode : String
  deriving DecidableEq, Repr

/-- A training session: `{status, progress, language}`. -/
structure TrainSession where
  status : String
  progress : ℚ
  language : String
  deriving DecidableEq, Repr

/-- An HTTP response: 200 with a success body, or `status` with a
`{success:false, error}` envelope. -/
inductive RouteResponse (α : Type) where
  | ok (body : α)
  | err (status : Nat) (error : String)
  deriving DecidableEq, Repr

/-- One call made on the NLU engine by the predict handler, in order. -/
inductive EngineCall where
  | loadModel (m : Model)
  | predict (sentence : String) (languageCode : String)
  | unloadModel (languageCode : String)
  deriving DecidableEq, Repr

/-- Outcomes of the external calls the `POST /predict/:modelId` handler can
make on this request: `modelService.getModel` (throwing or returning an
optional model), `engine.loadModel`, `engine.predict`, and
`engine.unloadModel` — all four sit inside the handler's `try`, so any of
them may throw. The prediction value is kept opaque as a `String`. -/
structure PredictDeps where
  getModel : String → String → Except String (Option Model)
  loadModel : Model → Except String Unit
  predict : String → String → Except String String
  unloadModel : String → Except String Unit

/-- `POST /predict/:modelId` handler. Returns the response together with
the list of engine calls issued, in order. `password ?? ''` is the default
for a missing password. A synchronous throw from `engine.unloadModel`
happens before `res.send`, so it too lands in the `catch` and yields 404. -/
def predictRoute (d : PredictDeps) (modelId : String) (sentence : String)
    (password : Option String) : RouteResponse String × List EngineCall :=
  match d.getModel modelId (password.getD "") with
  | .error e => (.err 404 e, [])
  | .ok none =>
    (.err 404 ("modelId " ++ modelId ++ " can" ++ "\x27" ++ "t be found"), [])
  | .ok (some m) =>
    match d.loadModel m with
    | .error e => (.err 404 e, [.loadModel m])
    | .ok _ =>
      match d.predict sentence m.languageCode with
      | .error e => (.err 404 e, [.loadModel m, .predict sentence m.languageCode])
      | .ok prediction =>
        match d.unloadModel m.languageCode with
        | .error e =>
          (.err 404 e,
           [.loadModel m, .predict sentence m.languageCode, .unloadModel m.languageCode])
        | .ok _ =>
          (.ok prediction,
           [.loadModel m, .predict sentence m.languageCode, .unloadModel m.languageCode])

/-- Outcomes of the external calls the `GET /train/:modelId` handler can
make: `trainSessionService.getTrainingSession` (synchronous lookup) and
`modelService.getModel`. -/
structure TrainStatusDeps where
  getTrainingSession : String → Option TrainSession
  getModel : String → String → Except String (Option Model)

/-- `GET /train/:modelId` handler. -/
def getTrainRoute (d : TrainStatusDeps) (modelId : String)
    (password : Option String) : RouteResponse TrainSession :=
  match d.getTrainingSession modelId with
  | some session => .ok session
  | none =>
    match d.getModel modelId (password.getD "") with
    | .error e => .err 500 e
    | .ok none =>
      .err 404 ("no model or training could be found for modelId: " ++ modelId)
    | .ok (some model) =>
      .ok { status := "done", progress := 1, language := model.languageCode }

/-- A validated train input `{topics, entities, language, password, seed}`.
Topics map a topic name to its list of intents; intent and entity contents
are opaque (`String`). -/
structure TrainInput where
  topics : List (String × List String)
  entities : List String
  language : String
  password : String
  seed : Nat
  deriving DecidableEq, Repr

/-- `_.flatMap(Object.values(topics))`: the concatenated intent lists. -/
def intentsOf (input : TrainInput) : List String :=
  (input.topics.map Prod.snd).flatten

/-- Modelled from the spec: `engine.computeModelHash` lives in
`nlu-core/engine`, which is not among the provided sources. Per the spec it
is a deterministic content hash of intents, entities and language; it is
modelled as a concrete pure (hence deterministic) function of exactly those
three arguments. -/
def computeModelHash (intents : List String) (entities : List String)
    (language : String) : String :=
  String.intercalate "," intents ++ "|" ++ String.intercalate "," entities ++ "|" ++ language

/-- Modelled from the spec: `modelService.makeModelId` lives in
`model-service`, which is not among the provided sources. The handler calls
it with the model hash, the language and the request seed; per the spec the
model identifier "derives a modelId from a content hash of
intents/entities/language" — a deterministic function of intents, entities
and language alone — so the result combines the hash (which covers those
three) and the language, and does not depend on the seed argument. -/
def makeModelId (modelHash : String) (language : String) (_seed : Nat) : String :=
  modelHash ++ "." ++ language

/-- The model identifier `POST /train` computes from a validated input. -/
def modelIdOf (input : TrainInput) : String :=
  makeModelId (computeModelHash (intentsOf input) input.entities input.language)
    input.language input.seed

/-- Outcome of `validate(req.body, TrainInputCreateSchema, {stripUnknown:true})`
for this request: the validated input, or a thrown validation error. The
Joi schema itself is not among the provided sources, so validation stays an
oracle. -/
structure TrainDeps where
  validate : TrainInput → Except String TrainInput

/-- `POST /train` handler. `trainService.train` is started without `await`
(fire-and-forget); its eventual outcome `trainResult` is therefore passed
separately and the handler never consults it. The returned `Bool` records
whether training was started. -/
def postTrainRoute (d : TrainDeps) (_trainResult : Except String Unit)
    (body : TrainInput) : RouteResponse String × Bool :=
  match d.validate body with
  | .error e => (.err 500 e, false)
  | .ok input => (.ok (modelIdOf input), true)

/-! ## TrainNow widget

`TrainNow.tsx` keeps three boolean state hooks (`loading`, `training`,
`cancelling`). `trainNow` sets `training`; the `statusbar.event` listener
resets `training` and `cancelling` when an `nlu` event's session status is
`done` or `canceled`; the component renders a cancel button while
`training`, else a train button. -/

/-- The widget's local state hooks. -/
structure TrainNowState where
  loading : Bool
  training : Bool
  cancelling : Bool
  deriving DecidableEq, Repr

/-- Initial hook values: `useState(true)`, `useState(false)`, `useState(false)`. -/
def initialTrainNowState : TrainNowState :=
  { loading := true, training := false, cancelling := false }

/-- A `statusbar.event` bus event: its `type` and the carried
`trainSession`. -/
structure BusEvent where
  type : String
  trainSession : TrainSession
  deriving DecidableEq, Repr

/-- `isDoneOrCancelled(event)`. -/
def isDoneOrCancelled (event : BusEvent) : Bool :=
  event.trainSession.status = "done" || event.trainSession.status = "canceled"

/-- The `statusbar.event` listener body. -/
def onStatusbarEvent (s : TrainNowState) (event : BusEvent) : TrainNowState :=
  if event.type = "nlu" && isDoneOrCancelled event then
    { s with training := false, cancelling := false }
  else
    s

/-- `trainNow`: `setTraining(true)` then fire `api.train()`. -/
def trainNow (s : TrainNowState) : TrainNowState :=
  { s with training := true }

/-- `cancelTraining`: `setCancelling(true)` after requesting cancellation. -/
def cancelTraining (s : TrainNowState) : TrainNowState :=
  { s with cancelling := true }

/-- What the component renders: the cancel control (disabled while
`cancelling`) or the train control. -/
inductive TrainNowView where
  | cancelButton (disabled : Bool) (loading : Bool)
  | trainButton (loading : Bool)
  deriving DecidableEq, Repr

/-- The component's render function. -/
def renderTrainNow (s : TrainNowState) : TrainNowView :=
  if s.training then .cancelButton s.cancelling s.loading
  else .trainButton s.loading

/-! ## Helper lemmas -/

/-- If some list member makes `f` throw, the whole `mapE` traversal throws
(some error: the first thrower in list order wins). -/
theorem mapE_error_of_mem {α β : Type} (f : α → Except String β)
    (l : List α) (x : α) (hx : x ∈ l) (e : String) (hfx : f x = .error e) :
    ∃ msg, mapE f l = Except.error msg := by
  induction l with
  | nil => cases hx
  | cons y ys ih =>
    rcases List.mem_cons.mp hx with hxy | hxs
    · subst hxy
      exact ⟨e, by simp [mapE, hfx]⟩
    · cases hfy : f y with
      | error e' => exact ⟨e', by simp [mapE, hfy]⟩
      | ok v =>
        obtain ⟨msg, hmsg⟩ := ih hxs
        exact ⟨msg, by simp [mapE, hfy, hmsg]⟩

/-- An action outside the three recognized kinds makes `mkButton` throw. -/
theorem mkButton_error_of_unrecognized (botUrl : String) (a : Action)
    (h : a.action ∉ ["Say something", "Open URL", "Postback"]) :
    mkButton botUrl a =
      .error ("Webchat carousel does not support \"" ++ a.action ++ "\" action-buttons at the moment") := by
  simp only [List.mem_cons, List.not_mem_nil, or_false, not_or] at h
  obtain ⟨h1, h2, h3⟩ := h
  simp [mkButton, h1, h2, h3]

/-- A card holding an unrecognized action makes `renderCard` throw. -/
theorem renderCard_error_of_unrecognized (data : CarouselData) (card : Card)
    (a : Action) (ha : a ∈ card.actions)
    (h : a.action ∉ ["Say something", "Open URL", "Postback"]) :
    ∃ msg, renderCard data card = Except.error msg := by
  obtain ⟨msg, hmsg⟩ :=
    mapE_error_of_mem (mkButton data.BOT_URL) card.actions a ha _
      (mkButton_error_of_unrecognized data.BOT_URL a h)
  exact ⟨msg, by simp [renderCard, hmsg]⟩

/-- An unrecognized action anywhere in the items aborts the whole `render`. -/
theorem render_error_of_unrecognized (data : CarouselData) (card : Card)
    (hc : card ∈ data.items) (a : Action) (ha : a ∈ card.actions)
    (h : a.action ∉ ["Say something", "Open URL", "Postback"]) :
    ∃ msg, render data = Except.error msg := by
  obtain ⟨e, he⟩ := renderCard_error_of_unrecognized data card a ha h
  obtain ⟨msg, hmsg⟩ := mapE_error_of_mem (renderCard data) data.items card hc e he
  exact ⟨msg, by simp [render, hmsg]⟩

/-! ## Claim theorems -/

/-- C1: for every card action whose `action` field is one of
`Say something` / `Open URL` / `Postback`, the render function produces a
button object of the corresponding fixed shape (`{type:'say_something',
title, text}`, `{type:'open_url', title, url}`, `{type:'postback', title,
payload}` respectively); for every action with any other `action` value,
`render` throws, aborting the whole render rather than silently skipping
the button. -/
theorem C1_button_shapes_and_abort (botUrl : String) (a : Action) :
    (a.action = "Say something" →
      mkButton botUrl a = .ok (.say_something a.title a.text)) ∧
    (a.action = "Open URL" →
      mkButton botUrl a =
        .ok (.open_url a.title (a.url.map (fun u => u.replace "BOT_URL" botUrl)))) ∧
    (a.action = "Postback" →
      mkButton botUrl a = .ok (.postback a.title a.payload)) ∧
    (a.action ∉ ["Say something", "Open URL", "Postback"] →
      (∃ msg, mkButton botUrl a = Except.error msg) ∧
      ∀ (data : CarouselData) (card : Card), card ∈ data.items → a ∈ card.actions →
        ∃ msg, render data = Except.error msg) := by
  refine ⟨fun h => by simp [mkButton, h], fun h => by simp [mkButton, h],
    fun h => by simp [mkButton, h], fun h => ⟨⟨_, mkButton_error_of_unrecognized botUrl a h⟩,
    fun data card hc ha => render_error_of_unrecognized data card hc a ha h⟩⟩

/-- Witness for C1 at concrete actions: each recognized kind yields its
shape, and a `Dial` action aborts the whole render. -/
theorem C1_witness :
    mkButton "U" ⟨"Say something", some "t", some "x", none, none⟩ =
      .ok (.say_something (some "t") (some "x")) ∧
    mkButton "U" ⟨"Open URL", some "t", none, none, none⟩ =
      .ok (.open_url (some "t") none) ∧
    mkButton "U" ⟨"Postback", some "t", none, none, some "p"⟩ =
      .ok (.postback (some "t") (some "p")) ∧
    (∃ msg, render ⟨false, false, [⟨some "A", none, none,
        [⟨"Dial", none, none, none, none⟩]⟩], "U"⟩ = Except.error msg) :=
  ⟨(C1_button_shapes_and_abort "U" _).1 rfl,
   (C1_button_shapes_and_abort "U" _).2.1 rfl,
   (C1_button_shapes_and_abort "U" _).2.2.1 rfl,
   ((C1_button_shapes_and_abort "U" ⟨"Dial", none, none, none, none⟩).2.2.2
     (by decide)).2 ⟨false, false, [⟨some "A", none, none,
       [⟨"Dial", none, none, none, none⟩]⟩], "U"⟩
     ⟨some "A", none, none, [⟨"Dial", none, none, none, none⟩]⟩
     (by simp) (by simp)⟩

/-- C6: whenever the typing flag is truthy, the event list returned by a
successful `render` starts with a `{type:'typing'}` event and the carousel
payload follows it. -/
theorem C6_typing_event_first (data : CarouselData) (h : data.typing = true)
    (evs : List RenderEvent) (hr : render data = .ok evs) :
    evs.head? = some (RenderEvent.typing true) ∧
    ∃ elements, evs =
      [RenderEvent.typing true, RenderEvent.carousel " " data.collectFeedback elements] := by
  unfold render at hr
  cases hm : mapE (renderCard data) data.items with
  | error e => rw [hm] at hr; cases hr
  | ok elements =>
    rw [hm, h] at hr
    simp only [Except.ok.injEq] at hr
    subst hr
    exact ⟨rfl, elements, rfl⟩

/-- Witness for C6 at a concrete carousel with the typing flag set. -/
theorem C6_witness :
    ([RenderEvent.typing true, RenderEvent.carousel " " false []]).head? =
      some (RenderEvent.typing true) ∧
    ∃ elements, [RenderEvent.typing true, RenderEvent.carousel " " false []] =
      [RenderEvent.typing true, RenderEvent.carousel " " false elements] :=
  C6_typing_event_first ⟨true, false, [], "U"⟩ rfl _ rfl

/-- C7: rendering `{items:[{title:'A', actions:[]}]}` on an unsupported
channel synthesizes the payload directly; its carousel event has
`elements[0].title = 'A'` and `elements[0].buttons.length = 0`. -/
theorem C7_unsupported_channel_concrete :
    renderElement ⟨false, false, [⟨some "A", none, none, []⟩], "U"⟩ "sms" =
      .direct (.ok [RenderEvent.carousel " " false [⟨some "A", none, none, []⟩]]) ∧
    (⟨some "A", none, none, []⟩ : Element).title = some "A" ∧
    (⟨some "A", none, none, []⟩ : Element).buttons.length = 0 :=
  ⟨rfl, rfl, rfl⟩

/-- C8: `renderElement` delegates to the generic channel-templated renderer
(`base.renderer` with kind `carousel`) exactly for the channels of the
fixed allow-list `{web, slack, teams, messenger, telegram, twilio}`, and
synthesizes the channel-agnostic payload via `render` for every other
channel. -/
theorem C8_channel_branching (data : CarouselData) (channel : String) :
    (channel ∈ supportedChannels →
      renderElement data channel = .delegated data "carousel") ∧
    (channel ∉ supportedChannels →
      renderElement data channel = .direct (render data)) := by
  constructor <;> intro h <;> simp [renderElement, h]

/-- Witness for C8 at a listed channel (`web`) and an unlisted one (`sms`). -/
theorem C8_witness :
    renderElement ⟨false, false, [], "U"⟩ "web" =
      .delegated ⟨false, false, [], "U"⟩ "carousel" ∧
    renderElement ⟨false, false, [], "U"⟩ "sms" =
      .direct (render ⟨false, false, [], "U"⟩) :=
  ⟨(C8_channel_branching ⟨false, false, [], "U"⟩ "web").1 (by decide),
   (C8_channel_branching ⟨false, false, [], "U"⟩ "sms").2 (by decide)⟩

/-- C2: `POST /predict/:modelId` — when the model is found, the handler
loads the model, predicts on the request sentence, unloads, in that order,
and responds `{success:true, prediction}`; when no model is found, or when
`getModel`, `loadModel` or `predict` throws, it responds HTTP 404 with a
`{success:false, error}` envelope. -/
theorem C2_predict_route (d : PredictDeps) (modelId sentence : String)
    (password : Option String) :
    (∀ m prediction, d.getModel modelId (password.getD "") = .ok (some m) →
      d.loadModel m = .ok () →
      d.predict sentence m.languageCode = .ok prediction →
      d.unloadModel m.languageCode = .ok () →
      predictRoute d modelId sentence password =
        (.ok prediction,
         [.loadModel m, .predict sentence m.languageCode, .unloadModel m.languageCode])) ∧
    (d.getModel modelId (password.getD "") = .ok none →
      (predictRoute d modelId sentence password).1 =
        .err 404 ("modelId " ++ modelId ++ " can" ++ "\x27" ++ "t be found")) ∧
    (∀ e, d.getModel modelId (password.getD "") = .error e →
      (predictRoute d modelId sentence password).1 = .err 404 e) ∧
    (∀ m e, d.getModel modelId (password.getD "") = .ok (some m) →
      d.loadModel m = .error e →
      (predictRoute d modelId sentence password).1 = .err 404 e) ∧
    (∀ m e, d.getModel modelId (password.getD "") = .ok (some m) →
      d.loadModel m = .ok () →
      d.predict sentence m.languageCode = .error e →
      (predictRoute d modelId sentence password).1 = .err 404 e) ∧
    (∀ m prediction e, d.getModel modelId (password.getD "") = .ok (some m) →
      d.loadModel m = .ok () →
      d.predict sentence m.languageCode = .ok prediction →
      d.unloadModel m.languageCode = .error e →
      (predictRoute d modelId sentence password).1 = .err 404 e) := by
  refine ⟨fun m p h1 h2 h3 h4 => by simp [predictRoute, h1, h2, h3, h4],
    fun h1 => by simp [predictRoute, h1],
    fun e h1 => by simp [predictRoute, h1],
    fun m e h1 h2 => by simp [predictRoute, h1, h2],
    fun m e h1 h2 h3 => by simp [predictRoute, h1, h2, h3],
    fun m p e h1 h2 h3 h4 => by simp [predictRoute, h1, h2, h3, h4]⟩

/-- Witness for C2: concrete service outcomes for the success path, the
missing-model path, and each throwing step (including a throwing
`unloadModel`). -/
theorem C2_witness :
    predictRoute ⟨fun _ _ => .ok (some ⟨"id1", "en"⟩), fun _ => .ok (),
        fun _ _ => .ok "pred", fun _ => .ok ()⟩ "id1" "hello" none =
      (.ok "pred", [.loadModel ⟨"id1", "en"⟩, .predict "hello" "en", .unloadModel "en"]) ∧
    (predictRoute ⟨fun _ _ => .ok none, fun _ => .ok (), fun _ _ => .ok "pred",
        fun _ => .ok ()⟩ "idX" "hello" none).1 =
      .err 404 ("modelId " ++ "idX" ++ " can" ++ "\x27" ++ "t be found") ∧
    (predictRoute ⟨fun _ _ => .error "boom", fun _ => .ok (), fun _ _ => .ok "pred",
        fun _ => .ok ()⟩ "id1" "hello" none).1 = .err 404 "boom" ∧
    (predictRoute ⟨fun _ _ => .ok (some ⟨"id1", "en"⟩), fun _ => .error "load fail",
        fun _ _ => .ok "pred", fun _ => .ok ()⟩ "id1" "hello" none).1 =
      .err 404 "load fail" ∧
    (predictRoute ⟨fun _ _ => .ok (some ⟨"id1", "en"⟩), fun _ => .ok (),
        fun _ _ => .error "pred fail", fun _ => .ok ()⟩ "id1" "hello" none).1 =
      .err 404 "pred fail" ∧
    (predictRoute ⟨fun _ _ => .ok (some ⟨"id1", "en"⟩), fun _ => .ok (),
        fun _ _ => .ok "pred", fun _ => .error "unload fail"⟩ "id1" "hello" none).1 =
      .err 404 "unload fail" :=
  ⟨(C2_predict_route _ "id1" "hello" none).1 ⟨"id1", "en"⟩ "pred" rfl rfl rfl rfl,
   (C2_predict_route _ "idX" "hello" none).2.1 rfl,
   (C2_predict_route _ "id1" "hello" none).2.2.1 "boom" rfl,
   (C2_predict_route _ "id1" "hello" none).2.2.2.1 ⟨"id1", "en"⟩ "load fail" rfl rfl,
   (C2_predict_route _ "id1" "hello" none).2.2.2.2.1 ⟨"id1", "en"⟩ "pred fail" rfl rfl rfl,
   (C2_predict_route _ "id1" "hello" none).2.2.2.2.2 ⟨"id1", "en"⟩ "pred" "unload fail"
     rfl rfl rfl rfl⟩

/-- C10: in `POST /predict/:modelId`, when `engine.predict` throws after a
successful `engine.loadModel`, no `unloadModel` call is ever issued for the
request (there is no `finally` cleanup), and the handler still responds 404
with the error message — the engine's loaded-model state is left changed. -/
theorem C10_no_unload_on_predict_failure (d : PredictDeps)
    (modelId sentence : String) (password : Option String) (m : Model) (e : String)
    (hget : d.getModel modelId (password.getD "") = .ok (some m))
    (hload : d.loadModel m = .ok ())
    (hpred : d.predict sentence m.languageCode = .error e) :
    (predictRoute d modelId sentence password).2 =
      [.loadModel m, .predict sentence m.languageCode] ∧
    (∀ lang, EngineCall.unloadModel lang ∉ (predictRoute d modelId sentence password).2) ∧
    (predictRoute d modelId sentence password).1 = .err 404 e := by
  have hroute : predictRoute d modelId sentence password =
      (.err 404 e, [.loadModel m, .predict sentence m.languageCode]) := by
    simp [predictRoute, hget, hload, hpred]
  refine ⟨by rw [hroute], fun lang => by rw [hroute]; simp, by rw [hroute]⟩

/-- Witness for C10: a concrete request whose predict step throws. -/
theorem C10_witness :
    (predictRoute ⟨fun _ _ => .ok (some ⟨"id1", "en"⟩), fun _ => .ok (),
        fun _ _ => .error "oom", fun _ => .ok ()⟩ "id1" "hi" none).2 =
      [.loadModel ⟨"id1", "en"⟩, .predict "hi" "en"] ∧
    (∀ lang, EngineCall.unloadModel lang ∉
      (predictRoute ⟨fun _ _ => .ok (some ⟨"id1", "en"⟩), fun _ => .ok (),
        fun _ _ => .error "oom", fun _ => .ok ()⟩ "id1" "hi" none).2) ∧
    (predictRoute ⟨fun _ _ => .ok (some ⟨"id1", "en"⟩), fun _ => .ok (),
        fun _ _ => .error "oom", fun _ => .ok ()⟩ "id1" "hi" none).1 = .err 404 "oom" :=
  C10_no_unload_on_predict_failure _ "id1" "hi" none ⟨"id1", "en"⟩ "oom" rfl rfl rfl

/-- C3: `GET /train/:modelId` — a tracked live session is returned as
`{success:true, session}`; otherwise a persisted model yields a synthesized
session with status `done`, progress `1`, and the model's `languageCode`;
when neither a session nor a model exists, the handler responds HTTP 404
with a `{success:false, error}` envelope. -/
theorem C3_get_train_route (d : TrainStatusDeps) (modelId : String)
    (password : Option String) :
    (∀ session, d.getTrainingSession modelId = some session →
      getTrainRoute d modelId password = .ok session) ∧
    (∀ m, d.getTrainingSession modelId = none →
      d.getModel modelId (password.getD "") = .ok (some m) →
      getTrainRoute d modelId password =
        .ok { status := "done", progress := 1, language := m.languageCode }) ∧
    (d.getTrainingSession modelId = none →
      d.getModel modelId (password.getD "") = .ok none →
      getTrainRoute d modelId password =
        .err 404 ("no model or training could be found for modelId: " ++ modelId)) := by
  refine ⟨fun session h => by simp [getTrainRoute, h],
    fun m h1 h2 => by simp [getTrainRoute, h1, h2],
    fun h1 h2 => by simp [getTrainRoute, h1, h2]⟩

/-- Witness for C3: a tracked session, a persisted-model fallback, and the
neither-exists 404, at concrete service outcomes. -/
theorem C3_witness :
    getTrainRoute ⟨fun _ => some ⟨"training", 1/2, "en"⟩, fun _ _ => .ok none⟩
        "id1" none = .ok ⟨"training", 1/2, "en"⟩ ∧
    getTrainRoute ⟨fun _ => none, fun _ _ => .ok (some ⟨"id1", "fr"⟩)⟩ "id1" none =
      .ok { status := "done", progress := 1, language := "fr" } ∧
    getTrainRoute ⟨fun _ => none, fun _ _ => .ok none⟩ "idX" none =
      .err 404 ("no model or training could be found for modelId: " ++ "idX") :=
  ⟨(C3_get_train_route _ "id1" none).1 ⟨"training", 1/2, "en"⟩ rfl,
   (C3_get_train_route _ "id1" none).2.1 ⟨"id1", "fr"⟩ rfl rfl,
   (C3_get_train_route _ "idX" none).2.2 rfl rfl⟩

/-- C4: `POST /train` — a body that validates yields HTTP 200 with
`{success:true, modelId}` while training is started fire-and-forget (the
response does not depend on the training outcome); a validation failure
yields HTTP 500 (not 400) with `{success:false, error:message}`. -/
theorem C4_post_train_route (d : TrainDeps) (r : Except String Unit)
    (body : TrainInput) :
    (∀ input, d.validate body = .ok input →
      postTrainRoute d r body = (.ok (modelIdOf input), true)) ∧
    (∀ e, d.validate body = .error e →
      postTrainRoute d r body = (.err 500 e, false)) ∧
    (∀ r₂, postTrainRoute d r body = postTrainRoute d r₂ body) := by
  refine ⟨fun input h => by simp [postTrainRoute, h],
    fun e h => by simp [postTrainRoute, h],
    fun r₂ => rfl⟩

/-- Witness for C4: a pass-through validator on a concrete body, a failing
validator, and independence from the training outcome. -/
theorem C4_witness :
    postTrainRoute ⟨fun b => .ok b⟩ (.ok ()) ⟨[("t", ["greet"])], [], "en", "", 1⟩ =
      (.ok (modelIdOf ⟨[("t", ["greet"])], [], "en", "", 1⟩), true) ∧
    postTrainRoute ⟨fun _ => .error "bad input"⟩ (.ok ()) ⟨[], [], "en", "", 1⟩ =
      (.err 500 "bad input", false) ∧
    postTrainRoute ⟨fun b => .ok b⟩ (.ok ()) ⟨[("t", ["greet"])], [], "en", "", 1⟩ =
      postTrainRoute ⟨fun b => .ok b⟩ (.error "train blew up")
        ⟨[("t", ["greet"])], [], "en", "", 1⟩ :=
  ⟨(C4_post_train_route ⟨fun b => .ok b⟩ (.ok ()) _).1 _ rfl,
   (C4_post_train_route ⟨fun _ => .error "bad input"⟩ (.ok ()) _).2.1 "bad input" rfl,
   (C4_post_train_route ⟨fun b => .ok b⟩ (.ok ()) _).2.2 (.error "train blew up")⟩

/-- C5: for any two valid `POST /train` requests whose validated inputs
agree on topics (hence intents), entities and language, the `modelId` in
the two responses is the same — the identifier is a deterministic function
of intents, entities and language, whatever the training outcomes. -/
theorem C5_modelId_deterministic (d : TrainDeps) (r₁ r₂ : Except String Unit)
    (b₁ b₂ i₁ i₂ : TrainInput)
    (h₁ : d.validate b₁ = .ok i₁) (h₂ : d.validate b₂ = .ok i₂)
    (ht : i₁.topics = i₂.topics) (he : i₁.entities = i₂.entities)
    (hl : i₁.language = i₂.language) :
    (postTrainRoute d r₁ b₁).1 = (postTrainRoute d r₂ b₂).1 := by
  simp [postTrainRoute, h₁, h₂, modelIdOf, intentsOf, makeModelId,
    computeModelHash, ht, he, hl]

/-- Witness for C5: two bodies differing in password and seed but agreeing
on topics, entities and language get the same `modelId`, even with
different training outcomes. -/
theorem C5_witness :
    (postTrainRoute ⟨fun b => .ok b⟩ (.ok ())
        ⟨[("t", ["greet"])], ["city"], "en", "x", 7⟩).1 =
      (postTrainRoute ⟨fun b => .ok b⟩ (.error "boom")
        ⟨[("t", ["greet"])], ["city"], "en", "y", 8⟩).1 :=
  C5_modelId_deterministic ⟨fun b => .ok b⟩ (.ok ()) (.error "boom") _ _ _ _
    rfl rfl rfl rfl rfl

/-- C9: after `train()` is invoked the widget is in the training state and
renders the cancel control; after a subsequently observed `statusbar.event`
of type `nlu` whose `trainSession.status` is `done` or `canceled`, both the
`training` and `cancelling` flags are reset and the widget renders the
initial trainable control again. -/
theorem C9_train_widget (s : TrainNowState) (e : BusEvent)
    (hty : e.type = "nlu")
    (hst : e.trainSession.status = "done" ∨ e.trainSession.status = "canceled") :
    (trainNow s).training = true ∧
    renderTrainNow (trainNow s) =
      .cancelButton (trainNow s).cancelling (trainNow s).loading ∧
    (onStatusbarEvent (trainNow s) e).training = false ∧
    (onStatusbarEvent (trainNow s) e).cancelling = false ∧
    renderTrainNow (onStatusbarEvent (trainNow s) e) = .trainButton s.loading := by
  have hdone : isDoneOrCancelled e = true := by
    rcases hst with h | h <;> simp [isDoneOrCancelled, h]
  refine ⟨rfl, by simp [renderTrainNow, trainNow], ?_, ?_, ?_⟩ <;>
    simp [onStatusbarEvent, hty, hdone, renderTrainNow, trainNow]

/-- Witness for C9: start from the initial state, train, then observe a
concrete `done` event. -/
theorem C9_witness :
    (trainNow initialTrainNowState).training = true ∧
    renderTrainNow (trainNow initialTrainNowState) =
      .cancelButton (trainNow initialTrainNowState).cancelling
        (trainNow initialTrainNowState).loading ∧
    (onStatusbarEvent (trainNow initialTrainNowState) ⟨"nlu", ⟨"done", 1, "en"⟩⟩).training = false ∧
    (onStatusbarEvent (trainNow initialTrainNowState) ⟨"nlu", ⟨"done", 1, "en"⟩⟩).cancelling = false ∧
    renderTrainNow (onStatusbarEvent (trainNow initialTrainNowState) ⟨"nlu", ⟨"done", 1, "en"⟩⟩) =
      .trainButton initialTrainNowState.loading :=
  C9_train_widget initialTrainNowState ⟨"nlu", ⟨"done", 1, "en"⟩⟩ rfl (Or.inl rfl)

end Botpress
